import Mathlib

/-!
Verification of the download-orchestration core of a video-download HTTP
service (src/main.py).  The Python handler is shallowly embedded: pure
helpers (`ascii_fallback_filename`, `content_disposition_header`) become
Lean functions on `String` / `List Char`; the request handler
`download_video` becomes a function from an explicit request environment
(query parameters, process configuration, outcome of the external yt-dlp
calls, initial temporary-directory listing, success of file writes) to a
response paired with the final temporary-directory listing.  External
collaborators (yt-dlp, the base64 decoder, the filesystem) are modelled as
oracle data carried in the environment; everything the handler itself does
with their results is translated from the source.

Paths are represented by their bare file names inside the temporary
directory (the source always works under one `tempfile.gettempdir()`
directory); the directory listing is a list of names whose order models
the arbitrary order of `os.listdir` — writes append, which realises the
common creation-order listing.
-/

/-- Concatenation of a list of lists (used to model joining pieces). -/
def catLists {α : Type} : List (List α) → List α
  | [] => []
  | x :: xs => x ++ catLists xs

/-- Membership in `catLists`. -/
theorem mem_catLists {α : Type} (a : α) : ∀ ls : List (List α),
    a ∈ catLists ls ↔ ∃ l ∈ ls, a ∈ l := by
  intro ls
  induction ls with
  | nil => simp [catLists]
  | cons x xs ih => simp [catLists, ih]

/-- Model of Python `str.startswith` on code-point lists. -/
def listStarts : List Char → List Char → Bool
  | [], _ => true
  | _ :: _, [] => false
  | a :: as, b :: bs => a = b && listStarts as bs

/-- Whether a code-point list occurs contiguously inside another. -/
def containsSub (pat : List Char) : List Char → Bool
  | [] => pat.isEmpty
  | c :: t => listStarts pat (c :: t) || containsSub pat t

/-- Model of Python string truthiness for an optional string:
`None` and the empty string are falsy. -/
def optTruthy : Option String → Bool
  | none => false
  | some s => !(s = "")

/-- Model of Python `a or b` on optional strings: first truthy wins. -/
def pyOr (a b : Option String) : Option String :=
  if optTruthy a then a else b

/-- Model of Python `a or b` on strings (empty string is falsy). -/
def pyOrS (a b : String) : String :=
  if a = "" then b else a

/-!
## Filename Encoder (src/main.py lines 47-84)
-/

/-- Model of `unicodedata.normalize("NFKD", ·)` per code point.  ASCII code
points have no decomposition (identity, per the Unicode standard); a small
table covers the decomposable characters used in concrete examples; other
code points are kept as-is.  `unicodedata` is an external library, so this
is an oracle-style model; every theorem below either feeds it ASCII input
(where it is exact) or applies the same model on both sides of a
comparison. -/
def nfkdChar (c : Char) : List Char :=
  if c.toNat < 128 then [c]
  else if c.toNat = 0xE9 then [Char.ofNat 0x65, Char.ofNat 0x301]
  else if c.toNat = 0xB2 then [Char.ofNat 0x32]
  else [c]

/-- NFKD over a whole code-point list. -/
def nfkdList (l : List Char) : List Char :=
  catLists (l.map nfkdChar)

/-- Replace every code point ≥ 128 by an underscore
(line 55 of the source). -/
def asciiReplace (l : List Char) : List Char :=
  l.map (fun c => if c.toNat < 128 then c else '_')

/-- Model of Python `s.split("_")` on code-point lists: splits at every
underscore, keeping empty pieces. -/
def pySplit : List Char → List (List Char)
  | [] => [[]]
  | c :: t =>
    if c = '_' then [] :: pySplit t
    else (c :: (pySplit t).headD []) :: (pySplit t).tail

/-- Model of Python `"_".join(pieces)`. -/
def joinU : List (List Char) → List Char
  | [] => []
  | [s] => s
  | s :: t :: rest => s ++ '_' :: joinU (t :: rest)

/-- Core of `ascii_fallback_filename` (lines 47-63): NFKD, replace
non-ASCII by `_`, `"_".join(filter(None, ·.split("_")))`, substitute
`video` when empty, truncate to 200 code points. -/
def asciiFallbackList (l : List Char) : List Char :=
  let collapsed := joinU ((pySplit (asciiReplace (nfkdList l))).filter (fun s => !s.isEmpty))
  (if collapsed.isEmpty then ("video").data else collapsed).take 200

/-- `ascii_fallback_filename` from src/main.py (with the default
`max_length = 200` used by every call site). -/
def ascii_fallback_filename (s : String) : String :=
  String.mk (asciiFallbackList s.data)

/-- Python `str.encode("latin-1")` succeeds exactly when every code point
is below 256. -/
def latin1Encodable (s : String) : Bool :=
  s.data.all (fun c => decide (c.toNat < 256))

/-- UTF-8 encoding of one code point, as byte values. -/
def utf8EncodeChar (c : Char) : List Nat :=
  let n := c.toNat
  if n < 0x80 then [n]
  else if n < 0x800 then [0xC0 + n / 64, 0x80 + n % 64]
  else if n < 0x10000 then [0xE0 + n / 4096, 0x80 + (n / 64) % 64, 0x80 + n % 64]
  else [0xF0 + n / 262144, 0x80 + (n / 4096) % 64, 0x80 + (n / 64) % 64, 0x80 + n % 64]

/-- UTF-8 encoding of a string, as byte values. -/
def utf8Bytes (s : String) : List Nat :=
  catLists (s.data.map utf8EncodeChar)

/-- The characters `urllib.parse.quote` never escapes
(letters, digits, `_ . - ~`); with `safe=""` everything else is escaped. -/
def alwaysSafe (b : Nat) : Bool :=
  (65 ≤ b && b ≤ 90) || (97 ≤ b && b ≤ 122) || (48 ≤ b && b ≤ 57) ||
    b = 95 || b = 46 || b = 45 || b = 126

/-- Uppercase hexadecimal digit. -/
def hexDigitU (n : Nat) : Char :=
  ("0123456789ABCDEF").data.getD n 'X'

/-- Value of an uppercase hexadecimal digit. -/
def hexVal (c : Char) : Nat :=
  ("0123456789ABCDEF").data.indexOf c

/-- Percent-encoding of one byte, per `urllib.parse.quote(·, safe="")`. -/
def quoteByte (b : Nat) : List Char :=
  if alwaysSafe b then [Char.ofNat b]
  else ['%', hexDigitU (b / 16), hexDigitU (b % 16)]

/-- Model of `urllib.parse.quote(s, safe="")`: percent-encode the UTF-8
bytes of `s`, leaving only the always-safe characters literal. -/
def pyQuote (s : String) : String :=
  String.mk (catLists ((utf8Bytes s).map quoteByte))

/-- Percent-decoding back to byte values (hex escapes consume two digits;
any other character stands for its own code point). -/
def percentDecode : List Char → List Nat
  | [] => []
  | c :: rest =>
    if c = '%' then
      (hexVal (rest.headD '0') * 16 + hexVal (rest.tail.headD '0')) ::
        percentDecode rest.tail.tail
    else c.toNat :: percentDecode rest
termination_by l => l.length
decreasing_by
  · simp [List.length_tail]
    omega
  · simp

/-- `content_disposition_header` from src/main.py (lines 66-84): if the
name is Latin-1 encodable use the plain quoted form, otherwise emit both
the ASCII fallback and the RFC 5987 `filename*` parameter. -/
def content_disposition_header (filename : String) : String :=
  if latin1Encodable filename then
    "attachment; filename=\x22" ++ filename ++ "\x22"
  else
    "attachment; filename=\x22" ++ ascii_fallback_filename filename ++
      "\x22; filename*=UTF-8\x27\x27" ++ pyQuote filename

/-!
## Collapse-and-trim analysis of the underscore handling

`"_".join(filter(None, s.split("_")))` both collapses runs of underscores
and removes leading and trailing underscores.  The definitions below give
the collapse-only algorithm (the wording of the specification) and the
collapse-and-trim algorithm, and the equality between the source idiom and
collapse-and-trim is proved.
-/

/-- Collapse every run of consecutive underscores to one underscore.  The
flag records whether the previously emitted character was an underscore. -/
def collapseAux : Bool → List Char → List Char
  | _, [] => []
  | prevU, c :: t =>
    if c = '_' then
      if prevU then collapseAux true t else '_' :: collapseAux true t
    else c :: collapseAux false t

/-- Remove trailing underscores. -/
def trimB : List Char → List Char
  | [] => []
  | c :: t =>
    match trimB t with
    | [] => if c = '_' then [] else [c]
    | r => c :: r

theorem collapseAux_true_no_lead : ∀ l : List Char,
    (collapseAux true l).dropWhile (fun c => c = '_') = collapseAux true l := by
  intro l
  induction l with
  | nil => simp [collapseAux]
  | cons c t ih =>
    by_cases hc : c = '_'
    · subst hc; simpa [collapseAux] using ih
    · simp [collapseAux, hc, List.dropWhile_cons]

theorem dropWhile_collapseAux_false : ∀ l : List Char,
    (collapseAux false l).dropWhile (fun c => c = '_') = collapseAux true l := by
  intro l
  induction l with
  | nil => simp [collapseAux]
  | cons c t ih =>
    by_cases hc : c = '_'
    · subst hc
      simp [collapseAux, List.dropWhile_cons, collapseAux_true_no_lead]
    · simp [collapseAux, hc, List.dropWhile_cons]

theorem collapseAux_false_eq_true_of_head {c : Char} (t : List Char) (hc : ¬ c = '_') :
    collapseAux false (c :: t) = collapseAux true (c :: t) := by
  simp [collapseAux, hc]

theorem trimB_cons_of_ne {c : Char} (t : List Char) (hc : ¬ c = '_') :
    trimB (c :: t) = c :: trimB t := by
  simp only [trimB]
  cases htb : trimB t with
  | nil => simp [hc]
  | cons x xs => simp

theorem pySplit_ne_nil : ∀ l : List Char, pySplit l ≠ [] := by
  intro l
  cases l with
  | nil => simp [pySplit]
  | cons c t =>
    by_cases hc : c = '_' <;> simp [pySplit, hc]

theorem joinU_eq_nil_iff (F : List (List Char)) (h : ∀ s ∈ F, ¬ s.isEmpty) :
    joinU F = [] ↔ F = [] := by
  cases F with
  | nil => simp [joinU]
  | cons s rest =>
    cases rest with
    | nil =>
      have hs := h s (by simp)
      simp only [joinU]
      simp only [List.isEmpty_iff] at hs
      simp [hs]
    | cons t ts =>
      have hs := h s (by simp)
      simp only [List.isEmpty_iff] at hs
      simp only [joinU]
      constructor
      · intro hcontra
        exact absurd (List.append_eq_nil.mp hcontra).1 hs
      · intro hcontra; cases hcontra

/-- The split-filter-join idiom of the source equals collapsing underscore
runs followed by removing leading and trailing underscores. -/
theorem splitJoin_eq_trimCollapse : ∀ n : Nat, ∀ l : List Char, l.length ≤ n →
    joinU ((pySplit l).filter (fun s => !s.isEmpty)) = trimB (collapseAux true l) := by
  intro n
  induction n with
  | zero =>
    intro l hl
    have : l = [] := List.length_eq_zero.mp (Nat.le_zero.mp hl)
    subst this
    simp [pySplit, joinU, collapseAux, trimB]
  | succ n ih =>
    intro l hl
    cases l with
    | nil => simp [pySplit, joinU, collapseAux, trimB]
    | cons c t =>
      by_cases hc : c = '_'
      · subst hc
        have ht : t.length ≤ n := by
          simpa using Nat.lt_succ_iff.mp (Nat.lt_of_lt_of_le (by simp) hl)
        calc joinU ((pySplit ('_' :: t)).filter (fun s => !s.isEmpty))
            = joinU ((pySplit t).filter (fun s => !s.isEmpty)) := by
              simp [pySplit]
          _ = trimB (collapseAux true t) := ih t ht
          _ = trimB (collapseAux true ('_' :: t)) := by simp [collapseAux]
      · -- head is a non-underscore character
        have hsplit := pySplit_ne_nil t
        have hRHS : trimB (collapseAux true (c :: t)) = c :: trimB (collapseAux false t) := by
          have h1 : collapseAux true (c :: t) = c :: collapseAux false t := by
            simp [collapseAux, hc]
          rw [h1, trimB_cons_of_ne _ hc]
        cases t with
        | nil =>
          simp [pySplit, joinU, collapseAux, trimB, hc, hRHS]
        | cons c' r =>
          by_cases hc' : c' = '_'
          · subst hc'
            have hr : r.length ≤ n := by
              have := hl; simp at this; omega
            have ihr := ih r hr
            -- left side: pySplit (c :: '_' :: r) = [c] :: pySplit r
            have hL : pySplit (c :: '_' :: r) = [c] :: pySplit r := by
              simp [pySplit, hc]
            have hfalse : collapseAux false ('_' :: r) = '_' :: collapseAux true r := by
              simp [collapseAux]
            rw [hL, hRHS, hfalse]
            -- RHS: trimB ('_' :: collapseAux true r)
            unfold trimB
            cases htb : trimB (collapseAux true r) with
            | nil =>
              -- then joinU (filter (pySplit r)) = [] hence filter = []
              have hjoin : joinU ((pySplit r).filter (fun s => !s.isEmpty)) = [] := by
                rw [ihr, htb]
              have hfilterNil : (pySplit r).filter (fun s => !s.isEmpty) = [] := by
                have hmem : ∀ s ∈ (pySplit r).filter (fun s => !s.isEmpty), ¬ s.isEmpty := by
                  intro s hs
                  have := List.of_mem_filter hs
                  simpa using this
                exact (joinU_eq_nil_iff _ hmem).mp hjoin
              simp [List.filter_cons, hfilterNil, joinU]
            | cons x xs =>
              have hjoin : joinU ((pySplit r).filter (fun s => !s.isEmpty)) = x :: xs := by
                rw [ihr, htb]
              have hfilterNe : (pySplit r).filter (fun s => !s.isEmpty) ≠ [] := by
                intro hcontra
                rw [hcontra] at hjoin
                simp [joinU] at hjoin
              cases hF : (pySplit r).filter (fun s => !s.isEmpty) with
              | nil => exact absurd hF hfilterNe
              | cons y ys =>
                rw [hF] at hjoin
                simp [List.filter_cons, hF, joinU]
                rw [hjoin]
          · -- two leading non-underscore characters
            have ht : (c' :: r).length ≤ n := by
              have := hl; simp at this ⊢; omega
            have iht := ih (c' :: r) ht
            -- pySplit (c' :: r) has a nonempty head
            have hsplit2 : pySplit (c' :: r) = (c' :: (pySplit r).headD []) :: (pySplit r).tail := by
              simp [pySplit, hc']
            have hL : pySplit (c :: c' :: r) =
                (c :: c' :: (pySplit r).headD []) :: (pySplit r).tail := by
              simp [pySplit, hc, hc', hsplit2]
            have hRHS2 : trimB (collapseAux false (c' :: r)) = trimB (collapseAux true (c' :: r)) := by
              rw [collapseAux_false_eq_true_of_head _ hc']
            rw [hL, hRHS, hRHS2, ← iht, hsplit2]
            -- both sides are joinU over a cons with nonempty heads
            cases hT : (pySplit r).tail.filter (fun s => !s.isEmpty) with
            | nil => simp [List.filter_cons, hT, joinU]
            | cons z zs => simp [List.filter_cons, hT, joinU]

/-- The amended fallback algorithm: NFKD, replace non-ASCII by `_`,
collapse runs of `_` and drop leading and trailing `_`, substitute
`video` when empty, truncate to 200 code points. -/
def asciiFallbackAmendedList (l : List Char) : List Char :=
  let collapsed := trimB ((collapseAux false (asciiReplace (nfkdList l))).dropWhile (fun c => c = '_'))
  (if collapsed.isEmpty then ("video").data else collapsed).take 200

/-- String-level wrapper of the amended fallback algorithm. -/
def asciiFallbackAmended (s : String) : String :=
  String.mk (asciiFallbackAmendedList s.data)

/-- The fallback algorithm exactly as claim C8 words it: collapse runs of
`_` into a single `_` (without dropping leading or trailing underscores). -/
def asciiFallbackClaimList (l : List Char) : List Char :=
  let collapsed := collapseAux false (asciiReplace (nfkdList l))
  (if collapsed.isEmpty then ("video").data else collapsed).take 200

/-- String-level wrapper of the claim-C8 algorithm. -/
def asciiFallbackClaim (s : String) : String :=
  String.mk (asciiFallbackClaimList s.data)

/-!
## Facts about the encoder used by the claims
-/

theorem char_toNat_lt (c : Char) : c.toNat < 1114112 := by
  have h := c.valid
  simp only [UInt32.isValidChar, Nat.isValidChar] at h
  have heq : c.toNat = c.val.toNat := rfl
  rw [heq]
  rcases h with h | ⟨h1, h2⟩ <;> omega

theorem utf8EncodeChar_lt (c : Char) : ∀ b ∈ utf8EncodeChar c, b < 256 := by
  intro b hb
  have hc := char_toNat_lt c
  by_cases h1 : c.toNat < 128
  · simp [utf8EncodeChar, h1] at hb; omega
  · by_cases h2 : c.toNat < 2048
    · simp [utf8EncodeChar, h1, h2] at hb
      rcases hb with hb | hb <;> omega
    · by_cases h3 : c.toNat < 65536
      · simp [utf8EncodeChar, h1, h2, h3] at hb
        rcases hb with hb | hb | hb <;> omega
      · simp [utf8EncodeChar, h1, h2, h3] at hb
        rcases hb with hb | hb | hb | hb <;> omega

theorem hexVal_hexDigitU : ∀ n, n < 16 → hexVal (hexDigitU n) = n := by decide

theorem charOfNat_toNat_small : ∀ b, b < 128 → (Char.ofNat b).toNat = b := by decide

theorem percentDecode_quoteByte (b : Nat) (hb : b < 256) (rest : List Char) :
    percentDecode (quoteByte b ++ rest) = b :: percentDecode rest := by
  by_cases hs : alwaysSafe b = true
  · have hb' : b < 128 ∧ ¬ b = 37 := by
      simp [alwaysSafe] at hs
      omega
    have h1 : (Char.ofNat b).toNat = b := charOfNat_toNat_small b hb'.1
    have h2 : ¬ (Char.ofNat b = '%') := by
      intro hcontra
      apply hb'.2
      have := congrArg Char.toNat hcontra
      rw [h1] at this
      simpa using this
    simp [quoteByte, hs, percentDecode, h2, h1]
  · have hd1 : b / 16 < 16 := by omega
    have hd2 : b % 16 < 16 := by omega
    simp [quoteByte, hs, percentDecode, hexVal_hexDigitU _ hd1, hexVal_hexDigitU _ hd2]
    omega

theorem percentDecode_quoteBytes (bs : List Nat) (h : ∀ b ∈ bs, b < 256) :
    percentDecode (catLists (bs.map quoteByte)) = bs := by
  induction bs with
  | nil => simp [catLists, percentDecode]
  | cons b t ih =>
    simp only [List.map_cons, catLists]
    rw [percentDecode_quoteByte b (h b (by simp)) _]
    rw [ih (fun x hx => h x (by simp [hx]))]

/-- Percent-decoding the `filename*` payload recovers exactly the UTF-8
bytes of the original name. -/
theorem pyQuote_decodes (s : String) :
    percentDecode (pyQuote s).data = utf8Bytes s := by
  have h : ∀ b ∈ utf8Bytes s, b < 256 := by
    intro b hb
    unfold utf8Bytes at hb
    rw [mem_catLists] at hb
    obtain ⟨l, hl, hbl⟩ := hb
    simp only [List.mem_map] at hl
    obtain ⟨c, _, rfl⟩ := hl
    exact utf8EncodeChar_lt c b hbl
  simpa [pyQuote] using percentDecode_quoteBytes _ h

theorem mem_pySplit : ∀ l : List Char, ∀ s' ∈ pySplit l, ∀ c ∈ s', c ∈ l := by
  intro l
  induction l with
  | nil =>
    intro s' hs' c hc
    simp [pySplit] at hs'
    subst hs'
    cases hc
  | cons a t ih =>
    intro s' hs' c hc
    by_cases ha : a = '_'
    · subst ha
      simp [pySplit] at hs'
      rcases hs' with hs' | hs'
      · subst hs'; cases hc
      · exact List.mem_cons_of_mem _ (ih s' hs' c hc)
    · simp [pySplit, ha] at hs'
      rcases hs' with hs' | hs'
      · subst hs'
        rcases List.mem_cons.mp hc with hc | hc
        · simp [hc]
        · cases hsp : pySplit t with
          | nil => exact absurd hsp (pySplit_ne_nil t)
          | cons s0 ss =>
            have : c ∈ s0 := by rw [hsp] at hc; simpa using hc
            exact List.mem_cons_of_mem _ (ih s0 (by simp [hsp]) c this)
      · cases hsp : pySplit t with
        | nil => exact absurd hsp (pySplit_ne_nil t)
        | cons s0 ss =>
          rw [hsp] at hs'
          simp at hs'
          exact List.mem_cons_of_mem _ (ih s' (by simp [hsp, hs']) c hc)

theorem mem_joinU : ∀ F : List (List Char), ∀ c ∈ joinU F,
    (∃ s' ∈ F, c ∈ s') ∨ c = '_' := by
  intro F
  induction F with
  | nil => intro c hc; cases hc
  | cons s rest ih =>
    intro c hc
    cases rest with
    | nil =>
      simp only [joinU] at hc
      exact Or.inl ⟨s, by simp, hc⟩
    | cons t ts =>
      simp only [joinU, List.mem_append, List.mem_cons] at hc
      rcases hc with hc | hc | hc
      · exact Or.inl ⟨s, by simp, hc⟩
      · exact Or.inr hc
      · rcases ih c hc with ⟨s', hs', hcs'⟩ | h
        · exact Or.inl ⟨s', by simp [List.mem_cons.mp hs'], hcs'⟩
        · exact Or.inr h

/-- Every code point of the ASCII fallback name is below 128. -/
theorem asciiFallback_ascii (s : String) :
    ∀ c ∈ (ascii_fallback_filename s).data, c.toNat < 128 := by
  intro c hc
  have hrepl : ∀ d ∈ asciiReplace (nfkdList s.data), d.toNat < 128 := by
    intro d hd
    simp only [asciiReplace, List.mem_map] at hd
    obtain ⟨e, _, rfl⟩ := hd
    by_cases he : e.toNat < 128 <;> simp [he]
  simp only [ascii_fallback_filename, asciiFallbackList] at hc
  have hc' := List.take_subset 200 _ hc
  by_cases hempty :
      (joinU ((pySplit (asciiReplace (nfkdList s.data))).filter (fun s => !s.isEmpty))).isEmpty
  · rw [if_pos hempty] at hc'
    simp only [List.mem_cons] at hc'
    rcases hc' with rfl | rfl | rfl | rfl | rfl | hc' <;> first | decide | cases hc'
  · rw [if_neg hempty] at hc'
    rcases mem_joinU _ c hc' with ⟨s', hs', hcs'⟩ | h
    · have hs'' := List.mem_of_mem_filter hs'
      exact hrepl c (mem_pySplit _ s' hs'' c hcs')
    · subst h; decide

/-!
## Path helpers (models of `os.path` on POSIX)
-/

/-- Index of the last occurrence of a character in a code-point list. -/
def lastIdxOf (c : Char) (l : List Char) : Option Nat :=
  match l.reverse.findIdx? (fun d => d = c) with
  | none => none
  | some j => some (l.length - 1 - j)

/-- Model of posix `os.path.basename`: everything after the last slash. -/
def pyBasename (s : String) : String :=
  String.mk (s.data.reverse.takeWhile (fun c => !(c = '/'))).reverse

/-- Model of posix `os.path.splitext`: split at the last dot of the base
name, unless every character of the base name before that dot is itself a
dot (so leading dots never start an extension). -/
def pySplitext (s : String) : String × String :=
  let l := s.data
  let fnameStart : Nat := match lastIdxOf '/' l with | none => 0 | some i => i + 1
  match lastIdxOf '.' l with
  | none => (s, "")
  | some d =>
    if fnameStart ≤ d ∧ ((l.drop fnameStart).take (d - fnameStart)).any (fun c => !(c = '.')) then
      (String.mk (l.take d), String.mk (l.drop d))
    else (s, "")

/-- Model of Python `s.lstrip(".")`. -/
def lstripDots (s : String) : String :=
  String.mk (s.data.dropWhile (fun c => c = '.'))

example : pySplitext ("abc.cookies.txt") = (("abc.cookies"), (".txt")) := by decide
example : pySplitext (".bashrc") = ((".bashrc"), ("")) := by decide
example : pySplitext ("noext") = (("noext"), ("")) := by decide
example : pyBasename ("/tmp/x.mp4") = ("x.mp4") := by decide
example : lstripDots (".mp4") = ("mp4") := by decide

/-!
## Data model of a request (src/main.py lines 87-312)

A `ReqEnv` carries the query parameters, the process-wide configuration
read through `os.getenv`, the outcome oracles for the external
collaborators (filesystem write success, base64 decoding, the yt-dlp probe
and download calls) and the initial temporary-directory listing.
-/

/-- Best-effort metadata from the probe phase (`info.get("title")`,
`info.get("ext")`; either may be missing or empty). -/
structure MediaInfo where
  title : Option String
  ext : Option String
  deriving DecidableEq

/-- Outcome of `ydl.extract_info(url, download=False)`. -/
inductive ProbeOutcome
  | ok (info : MediaInfo)
  | err
  deriving DecidableEq

/-- Outcome of `ydl.download([url])`: success, a `DownloadError`, or any
other exception; each case carries the names of the files the call created
in the temporary directory before finishing (a failed download can leave
partial files, e.g. `continuedl` keeps `.part` files). -/
inductive MatOutcome
  | ok (created : List String)
  | downloadErr (msg : String) (created : List String)
  | otherErr (msg : String) (created : List String)
  deriving DecidableEq

/-- The request environment: query parameters, configuration, oracles. -/
structure ReqEnv where
  /-- The 10-hex-character request identifier (`uuid.uuid4().hex[:10]`). -/
  uid : String
  /-- The `format` query parameter (default `best`). -/
  fmt : String
  /-- The `cookies` query parameter (`None` when absent). -/
  cookies : Option String
  /-- Whether `os.path.exists(cookies)` holds for the parameter value. -/
  cookiesIsPath : Bool
  /-- Whether writing the explicit transient cookie file succeeds. -/
  explicitWriteOk : Bool
  /-- `YT_COOKIE_FILE_PATH`. -/
  envCookieFilePath : Option String
  /-- Whether that configured path exists on disk. -/
  envCookieFileExists : Bool
  /-- `YT_COOKIE_STRING_B64`. -/
  envCookieB64 : Option String
  /-- Oracle for `base64.b64decode(·).decode("utf-8")`;
  `none` models raising. -/
  b64Decode : String → Option String
  /-- Whether writing the environment-sourced transient cookie file
  succeeds. -/
  envWriteOk : Bool
  /-- `YT_COOKIE_STRING`. -/
  envCookieString : Option String
  /-- `YT_COOKIES_FROM_BROWSER`. -/
  envCookiesFromBrowser : Option String
  /-- `YT_PROXY`. -/
  ytProxy : Option String
  /-- `HTTP_PROXY`. -/
  httpProxy : Option String
  /-- `HTTPS_PROXY`. -/
  httpsProxy : Option String
  /-- Outcome of the metadata probe. -/
  probe : ProbeOutcome
  /-- Outcome of the download call. -/
  materialize : MatOutcome
  /-- Names already present in the temporary directory at request start. -/
  fs0 : List String

/-- The subset of `ydl_opts` relevant to the claims. -/
structure YdlOpts where
  fmt : String
  outtmpl : String
  cookiefile : Option String
  cookiesfrombrowser : Option String
  proxy : Option String
  deriving DecidableEq

/-- Result of the credential-resolution section (lines 117-225): the
options handed to yt-dlp, the final value of `tmp_cookie_path`, the
transient files written (name, content, permission bits), the paths
registered with `background_tasks.add_task(_safe_remove, ·)`, and the
directory listing after resolution. -/
structure ResolveOut where
  opts : YdlOpts
  tmpCookiePath : Option String
  written : List (String × String × Nat)
  bgTasks : List String
  fs : List String
  deriving DecidableEq

/-- Name of the transient cookie file for an explicit raw parameter. -/
def cookieTmpName (uid : String) : String := uid ++ (".cookies.txt")

/-- Name of the transient cookie file for environment-sourced material. -/
def envCookieTmpName (uid : String) : String := uid ++ (".env.cookies.txt")

/-- Add a name to the directory listing (creating a file; rewriting an
existing file keeps its position). -/
def addFile (fs : List String) (n : String) : List String :=
  if fs.contains n then fs else fs ++ [n]

/-- Remove a name from the directory listing (`os.unlink`). -/
def removeFile (fs : List String) (n : String) : List String :=
  fs.filter (fun m => !(m = n))

/-- Credential resolution, translated from src/main.py lines 117-225:
explicit parameter first (existing path used directly; otherwise its text
is written to a transient file, write failures swallowed), then — only
when no cookie file was selected — the environment chain
(existing file path, base64 blob with raw-text fallback, raw string,
browser profile), and finally the proxy selection. -/
def resolveCookies (e : ReqEnv) : ResolveOut :=
  let base : YdlOpts :=
    { fmt := e.fmt, outtmpl := e.uid ++ (".%(ext)s"), cookiefile := none,
      cookiesfrombrowser := none, proxy := none }
  let s0 : ResolveOut :=
    { opts := base, tmpCookiePath := none, written := [], bgTasks := [], fs := e.fs0 }
  -- lines 122-143: explicit parameter
  let s1 : ResolveOut :=
    if optTruthy e.cookies then
      if e.cookiesIsPath then
        { s0 with opts := { base with cookiefile := e.cookies } }
      else if e.explicitWriteOk then
        { s0 with
            opts := { base with cookiefile := some (cookieTmpName e.uid) },
            tmpCookiePath := some (cookieTmpName e.uid),
            written := [(cookieTmpName e.uid, e.cookies.getD (""), 0o600)],
            bgTasks := [cookieTmpName e.uid],
            fs := addFile e.fs0 (cookieTmpName e.uid) }
      else s0
    else s0
  -- lines 152-212: environment chain, only when no cookiefile chosen
  let s2 : ResolveOut :=
    if s1.opts.cookiefile.isSome then s1
    else if optTruthy e.envCookieFilePath && e.envCookieFileExists then
      { s1 with opts := { s1.opts with cookiefile := e.envCookieFilePath } }
    else if optTruthy e.envCookieB64 then
      if e.envWriteOk then
        let blob := e.envCookieB64.getD ("")
        let decoded := (e.b64Decode blob).getD blob
        { s1 with
            opts := { s1.opts with cookiefile := some (envCookieTmpName e.uid) },
            tmpCookiePath := some (envCookieTmpName e.uid),
            written := s1.written ++ [(envCookieTmpName e.uid, decoded, 0o600)],
            bgTasks := s1.bgTasks ++ [envCookieTmpName e.uid],
            fs := addFile s1.fs (envCookieTmpName e.uid) }
      else s1
    else if optTruthy e.envCookieString then
      if e.envWriteOk then
        { s1 with
            opts := { s1.opts with cookiefile := some (envCookieTmpName e.uid) },
            tmpCookiePath := some (envCookieTmpName e.uid),
            written := s1.written ++ [(envCookieTmpName e.uid, e.envCookieString.getD (""), 0o600)],
            bgTasks := s1.bgTasks ++ [envCookieTmpName e.uid],
            fs := addFile s1.fs (envCookieTmpName e.uid) }
      else s1
    else s1
  -- lines 204-219: browser-profile directive when still no cookie file
  let s3 : ResolveOut :=
    if s2.opts.cookiefile.isNone && optTruthy e.envCookiesFromBrowser then
      { s2 with opts := { s2.opts with cookiesfrombrowser := e.envCookiesFromBrowser } }
    else s2
  -- lines 221-225: proxy selection, independent of cookies
  let proxy := pyOr e.ytProxy (pyOr e.httpProxy e.httpsProxy)
  if optTruthy proxy then { s3 with opts := { s3.opts with proxy := proxy } } else s3

/-- HTTP outcome of the handler: a 200 streaming response carrying the
Content-Disposition value and the streamed file name, or an
`HTTPException` with status code and detail. -/
inductive Response
  | stream (disposition : String) (path : String)
  | httpError (status : Nat) (detail : String)
  deriving DecidableEq

/-- Final observable outcome of one request: the response together with
the temporary-directory listing once the response (and, on the success
path, its streaming body and background tasks) has finished. -/
structure RunResult where
  response : Response
  fsFinal : List String
  deriving DecidableEq

/-- `info` after the probe phase (lines 230-239): metadata on success,
`None` on any failure. -/
def probeInfo (e : ReqEnv) : Option MediaInfo :=
  match e.probe with
  | ProbeOutcome.ok i => some i
  | ProbeOutcome.err => none

/-- Files created in the temporary directory by the download call. -/
def createdOf : MatOutcome → List String
  | MatOutcome.ok c => c
  | MatOutcome.downloadErr _ c => c
  | MatOutcome.otherErr _ c => c

/-- Directory listing right after the download call returns or raises. -/
def fsAfterMat (e : ReqEnv) : List String :=
  (createdOf e.materialize).foldl addFile (resolveCookies e).fs

/-- Lines 246-250: the first `os.listdir` entry whose name starts with the
request identifier. -/
def locateArtifact (e : ReqEnv) : Option String :=
  (fsAfterMat e).find? (fun n => listStarts e.uid.data n.data)

/-- Lines 255-271: reconcile the delivery file name from probe metadata
with fallbacks derived from the located file, then replace path
separators. -/
def codeFilename (info : Option MediaInfo) (uid fname : String) : String :=
  let title0 : Option String := match info with | some i => i.title | none => none
  let ext0 : Option String := match info with | some i => i.ext | none => none
  let title :=
    if optTruthy title0 then title0.getD ("")
    else pyOrS (pySplitext (pyBasename fname)).1 (("video_") ++ uid)
  let ext1 :=
    if optTruthy ext0 then ext0.getD ("")
    else pyOrS (lstripDots (pySplitext fname).2) ("mp4")
  let titleSafe :=
    String.mk ((title.data.map (fun c => if c = '/' then '-' else c)).map
      (fun c => if c = '\\' then '-' else c))
  titleSafe ++ (".") ++ ext1

/-- Detail text of the line 253 `HTTPException` (artifact not found). -/
def artifactMsg : String := "Download failed or file not found on server."

/-- Remove an optionally-tracked file (`tmp_cookie_path` cleanup). -/
def removeOpt (fs : List String) : Option String → List String
  | some p => removeFile fs p
  | none => fs

/-- The handler body after credential resolution (lines 227-312), given
the resolution outcome.  On the success path the streaming generator's
`finally` removes the streamed file and the registered background tasks
remove the transient cookie file; FastAPI does not run background tasks
for raised `HTTPException`s, and the `DownloadError` handler (lines
297-301) deletes nothing while the generic handler (lines 302-312)
deletes `tmp_cookie_path` only. -/
def runWithResolved (e : ReqEnv) (r : ResolveOut) : RunResult :=
  let fs1 := (createdOf e.materialize).foldl addFile r.fs
  match e.materialize with
  | MatOutcome.downloadErr msg _ =>
    { response := Response.httpError 502 (("Download error: ") ++ msg), fsFinal := fs1 }
  | MatOutcome.otherErr msg _ =>
    { response := Response.httpError 500 (("Error during download: ") ++ msg),
      fsFinal := removeOpt fs1 r.tmpCookiePath }
  | MatOutcome.ok _ =>
    match fs1.find? (fun n => listStarts e.uid.data n.data) with
    | none =>
      { response := Response.httpError 500 (("Error during download: 500: ") ++ artifactMsg),
        fsFinal := removeOpt fs1 r.tmpCookiePath }
    | some fname =>
      let disposition := content_disposition_header (codeFilename (probeInfo e) e.uid fname)
      let fs2 := removeFile fs1 fname
      let fs3 := r.bgTasks.foldl removeFile fs2
      { response := Response.stream disposition fname, fsFinal := fs3 }

/-- One full request (`download_video`). -/
def runRequest (e : ReqEnv) : RunResult :=
  runWithResolved e (resolveCookies e)

/-- Status code of a response (a streaming response is a 200). -/
def statusOf : Response → Nat
  | Response.stream _ _ => 200
  | Response.httpError s _ => s

/-- A response with its Content-Disposition value erased, used to state
that two runs differ at most in that header. -/
def responseShape : Response → Response
  | Response.stream _ p => Response.stream ("") p
  | r => r

/-- The streamed file name, when the response is a streaming response. -/
def streamPathOf : Response → Option String
  | Response.stream _ p => some p
  | Response.httpError _ _ => none

/-- The status the failure taxonomy assigns to a run, as a function of the
materialize outcome and artifact location only. -/
def statusExpected (e : ReqEnv) : Nat :=
  match e.materialize with
  | MatOutcome.downloadErr _ _ => 502
  | MatOutcome.otherErr _ _ => 500
  | MatOutcome.ok _ =>
    match locateArtifact e with
    | none => 500
    | some _ => 200

/-- A baseline environment: no cookies anywhere, probe fails, download
succeeds producing no files, empty temporary directory. -/
def baseEnv : ReqEnv :=
  { uid := ("u0"), fmt := ("best"), cookies := none, cookiesIsPath := false,
    explicitWriteOk := true, envCookieFilePath := none, envCookieFileExists := false,
    envCookieB64 := none, b64Decode := fun _ => none, envWriteOk := true,
    envCookieString := none, envCookiesFromBrowser := none, ytProxy := none,
    httpProxy := none, httpsProxy := none, probe := ProbeOutcome.err,
    materialize := MatOutcome.ok [("u0.mp4")], fs0 := [] }

example :
    runRequest baseEnv =
      { response := Response.stream ("attachment; filename=\x22u0.mp4\x22") ("u0.mp4"),
        fsFinal := [] } := by decide

example :
    runRequest { baseEnv with probe := ProbeOutcome.ok { title := some ("My/Vid"), ext := some ("mkv") } } =
      { response := Response.stream ("attachment; filename=\x22My-Vid.mkv\x22") ("u0.mp4"),
        fsFinal := [] } := by decide


/-!
## Lemmas about file removal and per-branch run equations
-/

theorem mem_removeFile {fs : List String} {x n : String} :
    x ∈ removeFile fs n ↔ x ∈ fs ∧ ¬ x = n := by
  simp [removeFile]

theorem not_mem_removeFile_self (fs : List String) (n : String) :
    n ∉ removeFile fs n := by
  simp [removeFile]

theorem mem_foldl_removeFile {x : String} : ∀ ns : List String, ∀ fs : List String,
    x ∈ ns.foldl removeFile fs → x ∈ fs := by
  intro ns
  induction ns with
  | nil => intro fs h; simpa using h
  | cons n t ih =>
    intro fs h
    simp only [List.foldl_cons] at h
    exact (mem_removeFile.mp (ih _ h)).1

theorem not_mem_foldl_removeFile_of_mem {x : String} : ∀ ns : List String, ∀ fs : List String,
    x ∈ ns → x ∉ ns.foldl removeFile fs := by
  intro ns
  induction ns with
  | nil => intro fs h; cases h
  | cons n t ih =>
    intro fs h hcontra
    simp only [List.foldl_cons] at hcontra
    rcases List.mem_cons.mp h with rfl | h
    · exact not_mem_removeFile_self fs x (mem_foldl_removeFile t _ hcontra)
    · exact ih _ h hcontra

theorem runRequest_downloadErr {e : ReqEnv} {msg : String} {created : List String}
    (hm : e.materialize = MatOutcome.downloadErr msg created) :
    runRequest e =
      { response := Response.httpError 502 (("Download error: ") ++ msg),
        fsFinal := fsAfterMat e } := by
  simp [runRequest, runWithResolved, fsAfterMat, hm]

theorem runRequest_otherErr {e : ReqEnv} {msg : String} {created : List String}
    (hm : e.materialize = MatOutcome.otherErr msg created) :
    runRequest e =
      { response := Response.httpError 500 (("Error during download: ") ++ msg),
        fsFinal := removeOpt (fsAfterMat e) (resolveCookies e).tmpCookiePath } := by
  simp [runRequest, runWithResolved, fsAfterMat, hm]

theorem runRequest_ok_none {e : ReqEnv} {created : List String}
    (hm : e.materialize = MatOutcome.ok created) (hf : locateArtifact e = none) :
    runRequest e =
      { response := Response.httpError 500 (("Error during download: 500: ") ++ artifactMsg),
        fsFinal := removeOpt (fsAfterMat e) (resolveCookies e).tmpCookiePath } := by
  unfold locateArtifact fsAfterMat at hf
  rw [hm] at hf
  simp only [createdOf] at hf
  simp [runRequest, runWithResolved, fsAfterMat, hm, createdOf, hf]

theorem runRequest_ok_located {e : ReqEnv} {created : List String} {fname : String}
    (hm : e.materialize = MatOutcome.ok created) (hf : locateArtifact e = some fname) :
    runRequest e =
      { response := Response.stream
          (content_disposition_header (codeFilename (probeInfo e) e.uid fname)) fname,
        fsFinal := (resolveCookies e).bgTasks.foldl removeFile
          (removeFile (fsAfterMat e) fname) } := by
  unfold locateArtifact fsAfterMat at hf
  rw [hm] at hf
  simp only [createdOf] at hf
  simp [runRequest, runWithResolved, fsAfterMat, hm, createdOf, hf]

/-- C4: the failure classification of the handler: a `DownloadError` from
the download call is answered with status 502 and a message derived from
the failure; success of the download call followed by a failed artifact
scan is answered with status 500; any other exception is answered with
status 500. -/
theorem c4_status_map (e : ReqEnv) :
    (∀ msg created, e.materialize = MatOutcome.downloadErr msg created →
        (runRequest e).response = Response.httpError 502 (("Download error: ") ++ msg))
    ∧ (∀ created, e.materialize = MatOutcome.ok created → locateArtifact e = none →
        statusOf (runRequest e).response = 500)
    ∧ (∀ msg created, e.materialize = MatOutcome.otherErr msg created →
        statusOf (runRequest e).response = 500) := by
  refine ⟨?_, ?_, ?_⟩
  · intro msg created h
    rw [runRequest_downloadErr h]
  · intro created h hl
    rw [runRequest_ok_none h hl]
    rfl
  · intro msg created h
    rw [runRequest_otherErr h]
    rfl

/-- Witness for C4 at concrete requests: a failing download, a download
reporting success with no file produced, and an unexpected exception. -/
theorem c4_status_map_witness :
    (runRequest { baseEnv with materialize := MatOutcome.downloadErr ("no formats") [] }).response
      = Response.httpError 502 (("Download error: ") ++ ("no formats"))
    ∧ statusOf (runRequest { baseEnv with materialize := MatOutcome.ok [] }).response = 500
    ∧ statusOf (runRequest { baseEnv with materialize := MatOutcome.otherErr ("oom") [] }).response = 500 :=
  ⟨(c4_status_map _).1 _ _ rfl,
   (c4_status_map _).2.1 _ rfl (by decide),
   (c4_status_map _).2.2 _ _ rfl⟩

/-- Replacing the probe outcome leaves status, final listing and response
shape of the post-resolution handler unchanged. -/
theorem runWithResolved_probe (e : ReqEnv) (p : ProbeOutcome) (r : ResolveOut) :
    statusOf (runWithResolved { e with probe := p } r).response
      = statusOf (runWithResolved e r).response
    ∧ (runWithResolved { e with probe := p } r).fsFinal = (runWithResolved e r).fsFinal
    ∧ responseShape (runWithResolved { e with probe := p } r).response
        = responseShape (runWithResolved e r).response := by
  unfold runWithResolved
  have hmat : ({ e with probe := p } : ReqEnv).materialize = e.materialize := rfl
  have huid : ({ e with probe := p } : ReqEnv).uid = e.uid := rfl
  rw [hmat, huid]
  cases e.materialize with
  | downloadErr msg c => exact ⟨rfl, rfl, rfl⟩
  | otherErr msg c => exact ⟨rfl, rfl, rfl⟩
  | ok c =>
    cases hfind : ((createdOf (MatOutcome.ok c)).foldl addFile r.fs).find?
        (fun n => listStarts e.uid.data n.data) with
    | none => simp [hfind]
    | some fname => simp [hfind, statusOf, responseShape]

/-- C5: probe isolation: replacing the probe outcome changes neither the
response status, nor the final directory listing, nor anything of the
response beyond the Content-Disposition value; and when the download call
succeeds and the artifact scan finds a file, the response is a 200
streaming response no matter what the probe did. -/
theorem c5_probe_isolated (e : ReqEnv) (p : ProbeOutcome) :
    statusOf (runRequest { e with probe := p }).response = statusOf (runRequest e).response
    ∧ (runRequest { e with probe := p }).fsFinal = (runRequest e).fsFinal
    ∧ responseShape (runRequest { e with probe := p }).response
        = responseShape (runRequest e).response
    ∧ (∀ created f, e.materialize = MatOutcome.ok created → locateArtifact e = some f →
        statusOf (runRequest e).response = 200) := by
  have hres : resolveCookies { e with probe := p } = resolveCookies e := rfl
  have h := runWithResolved_probe e p (resolveCookies e)
  unfold runRequest
  rw [hres]
  refine ⟨h.1, h.2.1, h.2.2, ?_⟩
  intro created f hm hf
  have := runRequest_ok_located hm hf
  unfold runRequest at this
  rw [this]
  rfl

/-- Witness for C5 at a concrete request whose probe fails while the
download succeeds. -/
theorem c5_probe_isolated_witness :
    statusOf (runRequest { baseEnv with probe := ProbeOutcome.err }).response
      = statusOf (runRequest baseEnv).response
    ∧ statusOf (runRequest baseEnv).response = 200 :=
  ⟨(c5_probe_isolated baseEnv ProbeOutcome.err).1,
   (c5_probe_isolated baseEnv ProbeOutcome.err).2.2.2 [("u0.mp4")] ("u0.mp4") rfl (by decide)⟩

/-- A request whose download fails with a `DownloadError` after writing a
partial artifact file. -/
def envC1 : ReqEnv :=
  { baseEnv with
    uid := ("a1"),
    materialize := MatOutcome.downloadErr ("boom") [("a1.mp4.part")] }

/-- A request with an explicit raw cookie parameter whose download
succeeds: the transient cookie file shares the identifier prefix, is
listed first, and is therefore streamed and deleted in place of the
artifact, which survives the request. -/
def envC1b : ReqEnv :=
  { baseEnv with
    uid := ("b1"),
    cookies := some ("SID=7"),
    materialize := MatOutcome.ok [("b1.mp4")] }

/-- C1 (counterexample): when the materialize phase fails, the partial
artifact file written by the failed download is still present at the end
of the request; and even on a success path with a transient cookie file,
the downloaded artifact itself survives the request.  Both contradict the
claim that every temporary file is removed on every exit path and in
particular that no artifact file remains after a materialize failure. -/
theorem c1_counterexample :
    (runRequest envC1).response = Response.httpError 502 ("Download error: boom")
    ∧ ("a1.mp4.part") ∈ (runRequest envC1).fsFinal
    ∧ statusOf (runRequest envC1b).response = 200
    ∧ ("b1.mp4") ∈ (runRequest envC1b).fsFinal := by decide

/-- C1 (amended): on the success path the streamed file and every path
registered for post-response deletion are absent from the final listing;
on a `DownloadError` the handler removes nothing, so the listing stays
exactly as the failed download left it; on the remaining failure paths
only the transient cookie file is removed. -/
theorem c1_cleanup_amended (e : ReqEnv) :
    (∀ d q, (runRequest e).response = Response.stream d q →
        q ∉ (runRequest e).fsFinal
        ∧ ∀ b ∈ (resolveCookies e).bgTasks, b ∉ (runRequest e).fsFinal)
    ∧ (∀ msg created, e.materialize = MatOutcome.downloadErr msg created →
        (runRequest e).fsFinal = fsAfterMat e)
    ∧ (∀ msg created, e.materialize = MatOutcome.otherErr msg created →
        ∀ q, (resolveCookies e).tmpCookiePath = some q → q ∉ (runRequest e).fsFinal)
    ∧ (∀ created, e.materialize = MatOutcome.ok created → locateArtifact e = none →
        ∀ q, (resolveCookies e).tmpCookiePath = some q → q ∉ (runRequest e).fsFinal) := by
  refine ⟨?_, ?_, ?_, ?_⟩
  · intro d q hq
    cases hm : e.materialize with
    | downloadErr msg c => rw [runRequest_downloadErr hm] at hq; cases hq
    | otherErr msg c => rw [runRequest_otherErr hm] at hq; cases hq
    | ok c =>
      cases hl : locateArtifact e with
      | none => rw [runRequest_ok_none hm hl] at hq; cases hq
      | some fname =>
        rw [runRequest_ok_located hm hl] at hq
        simp only [Response.stream.injEq] at hq
        obtain ⟨-, rfl⟩ := hq
        rw [runRequest_ok_located hm hl]
        constructor
        · intro hcontra
          exact not_mem_removeFile_self _ fname (mem_foldl_removeFile _ _ hcontra)
        · intro b hb hcontra
          exact not_mem_foldl_removeFile_of_mem _ _ hb hcontra
  · intro msg created h
    rw [runRequest_downloadErr h]
  · intro msg created h q hq
    rw [runRequest_otherErr h, hq]
    exact not_mem_removeFile_self _ q
  · intro created h hl q hq
    rw [runRequest_ok_none h hl, hq]
    exact not_mem_removeFile_self _ q

/-- A successful request used to witness the amended cleanup theorem. -/
def envC1w : ReqEnv :=
  { baseEnv with
    uid := ("w1"),
    probe := ProbeOutcome.ok { title := some ("t"), ext := some ("mp4") },
    materialize := MatOutcome.ok [("w1.mp4")] }

/-- Witness for the amended C1 at concrete requests. -/
theorem c1_cleanup_amended_witness :
    ("w1.mp4") ∉ (runRequest envC1w).fsFinal
    ∧ (runRequest envC1).fsFinal = fsAfterMat envC1 :=
  ⟨((c1_cleanup_amended envC1w).1 ("attachment; filename=\x22t.mp4\x22") ("w1.mp4")
      (by decide)).1,
   (c1_cleanup_amended envC1).2.1 ("boom") [("a1.mp4.part")] (by decide)⟩

/-- A request with an explicit raw cookie whose transient cookie file
shares the identifier prefix with the downloaded artifact. -/
def envC7 : ReqEnv :=
  { baseEnv with
    uid := ("u7"),
    cookies := some ("SID=1"),
    materialize := MatOutcome.ok [("u7.mp4")] }

/-- C7 (counterexample): after a successful download, two entries start
with the identifier (the transient cookie file and the artifact); the scan
returns the first of them — the cookie file — and that file, not the
artifact, is streamed, so the located path is not the artifact path. -/
theorem c7_counterexample :
    locateArtifact envC7 = some ("u7.cookies.txt")
    ∧ ("u7.mp4") ∈ fsAfterMat envC7
    ∧ streamPathOf (runRequest envC7).response = some ("u7.cookies.txt")
    ∧ ¬ (("u7.cookies.txt") : String) = ("u7.mp4") := by decide

/-- C7 (amended): the scan returns the first directory entry (in listing
order) whose name starts with the identifier — which can be the transient
cookie file rather than the artifact — and streams it; when no entry
starts with the identifier the request fails with status 500. -/
theorem c7_locate_amended (e : ReqEnv) :
    (∀ f, locateArtifact e = some f →
        listStarts e.uid.data f.data = true ∧ f ∈ fsAfterMat e ∧
        (∀ created, e.materialize = MatOutcome.ok created →
            ∃ d, (runRequest e).response = Response.stream d f))
    ∧ (locateArtifact e = none →
        (∀ n ∈ fsAfterMat e, listStarts e.uid.data n.data = false) ∧
        (∀ created, e.materialize = MatOutcome.ok created →
            (runRequest e).response
              = Response.httpError 500 (("Error during download: 500: ") ++ artifactMsg))) := by
  constructor
  · intro f hf
    have hf' : (fsAfterMat e).find? (fun n => listStarts e.uid.data n.data) = some f := hf
    have hstart := List.find?_some hf'
    refine ⟨by simpa using hstart, List.mem_of_find?_eq_some hf', ?_⟩
    intro created hm
    rw [runRequest_ok_located hm hf]
    exact ⟨_, rfl⟩
  · intro hf
    have hf' : (fsAfterMat e).find? (fun n => listStarts e.uid.data n.data) = none := hf
    constructor
    · intro n hn
      have := List.find?_eq_none.mp hf' n hn
      simpa using this
    · intro created hm
      rw [runRequest_ok_none hm hf]

/-- Witness for the amended C7: a run whose scan finds the artifact and a
run whose scan finds nothing. -/
theorem c7_locate_amended_witness :
    listStarts ("u0").data ("u0.mp4").data = true
    ∧ (∃ d, (runRequest baseEnv).response = Response.stream d ("u0.mp4"))
    ∧ (runRequest { baseEnv with materialize := MatOutcome.ok [] }).response
        = Response.httpError 500 (("Error during download: 500: ") ++ artifactMsg) :=
  ⟨((c7_locate_amended baseEnv).1 ("u0.mp4") (by decide)).1,
   ((c7_locate_amended baseEnv).1 ("u0.mp4") (by decide)).2.2 [("u0.mp4")] rfl,
   ((c7_locate_amended { baseEnv with materialize := MatOutcome.ok [] }).2 (by decide)).2 [] rfl⟩

/-!
## C9: naming reconciliation, stated from the specification wording
-/

/-- Title fallback as the specification words it: the resolved file base
name without its suffix, or the generated `video_<identifier>` when that
is empty. -/
def specNameFallback (uid fname : String) : String :=
  if (pySplitext (pyBasename fname)).1 = "" then ("video_") ++ uid
  else (pySplitext (pyBasename fname)).1

/-- Extension fallback as the specification words it: the resolved file
suffix without its leading dot, or `mp4` when absent. -/
def specExtFallback (fname : String) : String :=
  if lstripDots (pySplitext fname).2 = "" then ("mp4")
  else lstripDots (pySplitext fname).2

/-- Delivery title as the specification words it: from `MediaInfo` when
the probe succeeded and supplied a nonempty title, else the fallback. -/
def specTitle (info : Option MediaInfo) (uid fname : String) : String :=
  match info with
  | some i =>
    match i.title with
    | some t => if t = "" then specNameFallback uid fname else t
    | none => specNameFallback uid fname
  | none => specNameFallback uid fname

/-- Delivery extension as the specification words it. -/
def specExt (info : Option MediaInfo) (fname : String) : String :=
  match info with
  | some i =>
    match i.ext with
    | some x => if x = "" then specExtFallback fname else x
    | none => specExtFallback fname
  | none => specExtFallback fname

/-- Delivery file name as the specification words it: every `/` and `\`
of the title replaced by `-`, then joined with the extension. -/
def specFilename (info : Option MediaInfo) (uid fname : String) : String :=
  String.mk ((specTitle info uid fname).data.map
      (fun c => if c = '/' then '-' else if c = '\\' then '-' else c))
    ++ (".") ++ specExt info fname

/-- The two successive separator replacements of the source equal the
one-pass replacement of the specification. -/
theorem sep_replace_eq (l : List Char) :
    (l.map (fun c => if c = '/' then '-' else c)).map (fun c => if c = '\\' then '-' else c)
      = l.map (fun c => if c = '/' then '-' else if c = '\\' then '-' else c) := by
  induction l with
  | nil => simp
  | cons c t ih =>
    simp only [List.map_cons, ih]
    by_cases h1 : c = '/'
    · simp [h1]
    · by_cases h2 : c = '\\' <;> simp [h1, h2]

/-- The title branch of the code computation agrees with the
specification wording. -/
theorem codeTitle_eq_spec (info : Option MediaInfo) (uid fname : String) :
    (if optTruthy (match info with | some i => i.title | none => none) then
        (match info with | some i => i.title | none => none).getD ("")
      else pyOrS (pySplitext (pyBasename fname)).1 (("video_") ++ uid))
      = specTitle info uid fname := by
  cases info with
  | none => simp [optTruthy, specTitle, specNameFallback, pyOrS]
  | some i =>
    cases ht : i.title with
    | none => simp [optTruthy, ht, specTitle, specNameFallback, pyOrS]
    | some t =>
      by_cases he : t = ""
      · simp [optTruthy, ht, he, specTitle, specNameFallback, pyOrS]
      · simp [optTruthy, ht, he, specTitle]

/-- The extension branch of the code computation agrees with the
specification wording. -/
theorem codeExt_eq_spec (info : Option MediaInfo) (fname : String) :
    (if optTruthy (match info with | some i => i.ext | none => none) then
        (match info with | some i => i.ext | none => none).getD ("")
      else pyOrS (lstripDots (pySplitext fname).2) ("mp4"))
      = specExt info fname := by
  cases info with
  | none => simp [optTruthy, specExt, specExtFallback, pyOrS]
  | some i =>
    cases ht : i.ext with
    | none => simp [optTruthy, ht, specExt, specExtFallback, pyOrS]
    | some x =>
      by_cases he : x = ""
      · simp [optTruthy, ht, he, specExt, specExtFallback, pyOrS]
      · simp [optTruthy, ht, he, specExt]

/-- The code naming computation agrees with the specification wording. -/
theorem codeFilename_eq_spec (info : Option MediaInfo) (uid fname : String) :
    codeFilename info uid fname = specFilename info uid fname := by
  simp only [codeFilename, specFilename]
  rw [sep_replace_eq, codeTitle_eq_spec, codeExt_eq_spec]

/-- C9: after a successful download and artifact location, the response
streams the located file under a Content-Disposition built from the
reconciled name: title and extension from the probe metadata when
supplied, else derived from the located file (with `video_<id>` and `mp4`
fallbacks), and path separators in the title replaced by dashes before
encoding. -/
theorem c9_naming (e : ReqEnv) :
    ∀ created f, e.materialize = MatOutcome.ok created → locateArtifact e = some f →
      (runRequest e).response =
        Response.stream (content_disposition_header (specFilename (probeInfo e) e.uid f)) f := by
  intro created f hm hf
  rw [runRequest_ok_located hm hf, codeFilename_eq_spec]

/-- A successful request with probe metadata containing a path separator. -/
def envC9 : ReqEnv :=
  { baseEnv with
    probe := ProbeOutcome.ok { title := some ("A/B"), ext := some ("mkv") } }

/-- Witness for C9 at a concrete request. -/
theorem c9_naming_witness :
    (runRequest envC9).response =
      Response.stream (content_disposition_header (specFilename (probeInfo envC9) envC9.uid ("u0.mp4")))
        ("u0.mp4")
    ∧ content_disposition_header (specFilename (probeInfo envC9) envC9.uid ("u0.mp4"))
        = ("attachment; filename=\x22A-B.mkv\x22") :=
  ⟨c9_naming envC9 [("u0.mp4")] ("u0.mp4") rfl (by decide), by decide⟩

/-- C3: with an explicit raw (non-path) cookie parameter whose transient
write succeeds, the parameter text is what is written to the transient
cookie file (owner-only permission bits, registered for post-response
deletion), the cookie file option points at that transient file, no
browser directive is set, and the whole resolution result is unchanged
under arbitrary changes to the environment-sourced cookie configuration. -/
theorem c3_explicit_precedence (e : ReqEnv) (h1 : optTruthy e.cookies = true)
    (h2 : e.cookiesIsPath = false) (h3 : e.explicitWriteOk = true) :
    (resolveCookies e).opts.cookiefile = some (cookieTmpName e.uid)
    ∧ (resolveCookies e).written = [(cookieTmpName e.uid, e.cookies.getD (""), 0o600)]
    ∧ (resolveCookies e).bgTasks = [cookieTmpName e.uid]
    ∧ (resolveCookies e).opts.cookiesfrombrowser = none
    ∧ (∀ cf cfe cb cs cbr, resolveCookies
        { e with
          envCookieFilePath := cf,
          envCookieFileExists := cfe,
          envCookieB64 := cb,
          envCookieString := cs,
          envCookiesFromBrowser := cbr } = resolveCookies e) := by
  refine ⟨?_, ?_, ?_, ?_, ?_⟩ <;>
    simp [resolveCookies, h1, h2, h3, pyOr] <;>
    by_cases hp : optTruthy (if optTruthy e.ytProxy = true then e.ytProxy
        else if optTruthy e.httpProxy = true then e.httpProxy else e.httpsProxy) = true <;>
    simp [hp]

/-- A request with an explicit raw cookie parameter and a fully configured
set of environment-sourced cookie alternatives. -/
def envC3 : ReqEnv :=
  { baseEnv with
    cookies := some ("K=V"),
    envCookieFilePath := some ("/srv/env-cookie.txt"),
    envCookieFileExists := true,
    envCookieB64 := some ("QUJD"),
    envCookieString := some ("L=W"),
    envCookiesFromBrowser := some ("chrome") }

/-- Witness for C3 at a concrete request. -/
theorem c3_explicit_precedence_witness :
    (resolveCookies envC3).opts.cookiefile = some (cookieTmpName ("u0"))
    ∧ (resolveCookies envC3).written = [(cookieTmpName ("u0"), ("K=V"), 0o600)]
    ∧ resolveCookies
        { envC3 with
          envCookieFilePath := none,
          envCookieFileExists := false,
          envCookieB64 := none,
          envCookieString := none,
          envCookiesFromBrowser := none } = resolveCookies envC3 :=
  ⟨(c3_explicit_precedence envC3 (by decide) rfl rfl).1,
   (c3_explicit_precedence envC3 (by decide) rfl rfl).2.1,
   (c3_explicit_precedence envC3 (by decide) rfl rfl).2.2.2.2 none false none none none⟩

/-- A request whose explicit raw cookie parameter fails to be written
while an environment-sourced cookie file is configured and exists. -/
def envC6 : ReqEnv :=
  { baseEnv with
    uid := ("u6"),
    cookies := some ("RAW"),
    explicitWriteOk := false,
    envCookieFilePath := some ("/srv/env-cookie.txt"),
    envCookieFileExists := true }

/-- C6 (counterexample): a failed write of the explicit transient cookie
file does not degrade to supplying no cookie material — the resolver falls
through to the environment chain and supplies the configured cookie
file. -/
theorem c6_counterexample :
    (resolveCookies envC6).opts.cookiefile = some ("/srv/env-cookie.txt")
    ∧ (resolveCookies envC6).written = [] := by decide

/-- C6 (amended): credential resolution never aborts a request — the
response status is a function of the download outcome and artifact scan
alone; a failed transient write skips that cookie source and the chain
falls through to later sources (an existing environment cookie file can
still be supplied); a failed base64 decode falls back to writing the blob
as raw text; and only when every applicable source fails or is absent does
the resolver supply no cookie material. -/
theorem c6_credential_amended (e : ReqEnv) :
    statusOf (runRequest e).response = statusExpected e
    ∧ (optTruthy e.cookies = true → e.cookiesIsPath = false → e.explicitWriteOk = false →
        optTruthy e.envCookieFilePath = true → e.envCookieFileExists = true →
        (resolveCookies e).opts.cookiefile = e.envCookieFilePath)
    ∧ (optTruthy e.cookies = false →
        (optTruthy e.envCookieFilePath && e.envCookieFileExists) = false →
        optTruthy e.envCookieB64 = true → e.envWriteOk = true →
        e.b64Decode (e.envCookieB64.getD ("")) = none →
        (resolveCookies e).written
          = [(envCookieTmpName e.uid, e.envCookieB64.getD (""), 0o600)])
    ∧ (e.cookiesIsPath = false → e.explicitWriteOk = false → e.envWriteOk = false →
        (optTruthy e.envCookieFilePath && e.envCookieFileExists) = false →
        optTruthy e.envCookiesFromBrowser = false →
        (resolveCookies e).opts.cookiefile = none
        ∧ (resolveCookies e).opts.cookiesfrombrowser = none
        ∧ (resolveCookies e).written = []) := by
  refine ⟨?_, ?_, ?_, ?_⟩
  · cases hm : e.materialize with
    | downloadErr msg c => rw [runRequest_downloadErr hm]; simp [statusExpected, hm, statusOf]
    | otherErr msg c => rw [runRequest_otherErr hm]; simp [statusExpected, hm, statusOf]
    | ok c =>
      cases hl : locateArtifact e with
      | none => rw [runRequest_ok_none hm hl]; simp [statusExpected, hm, hl, statusOf]
      | some fname => rw [runRequest_ok_located hm hl]; simp [statusExpected, hm, hl, statusOf]
  · intro hc hp hw hf hfe
    have hne : ¬ e.envCookieFilePath = none := by
      cases hcf : e.envCookieFilePath with
      | none => rw [hcf] at hf; simp [optTruthy] at hf
      | some v => simp
    simp [resolveCookies, hc, hp, hw, hf, hfe, hne, pyOr]
    by_cases hpx : optTruthy (if optTruthy e.ytProxy = true then e.ytProxy
        else if optTruthy e.httpProxy = true then e.httpProxy else e.httpsProxy) = true <;>
      simp [hpx, hne]
  · intro hc hf hb hw hd
    simp [resolveCookies, hc, hf, hb, hw, hd, pyOr]
    by_cases hpx : optTruthy (if optTruthy e.ytProxy = true then e.ytProxy
        else if optTruthy e.httpProxy = true then e.httpProxy else e.httpsProxy) = true <;>
      simp [hpx]
  · intro hp hw hew hf hbr
    by_cases hc : optTruthy e.cookies = true <;>
      by_cases hb : optTruthy e.envCookieB64 = true <;>
      by_cases hs : optTruthy e.envCookieString = true <;>
      simp [resolveCookies, hc, hp, hw, hew, hf, hb, hs, hbr, pyOr] <;>
      by_cases hpx : optTruthy (if optTruthy e.ytProxy = true then e.ytProxy
          else if optTruthy e.httpProxy = true then e.httpProxy else e.httpsProxy) = true <;>
      simp [hpx]

/-- A request whose base64 cookie blob fails to decode. -/
def envC6b : ReqEnv :=
  { baseEnv with envCookieB64 := some ("!!!") }

/-- A request in which every cookie write fails and no other source
applies. -/
def envC6c : ReqEnv :=
  { baseEnv with
    cookies := some ("X"),
    explicitWriteOk := false,
    envWriteOk := false,
    envCookieString := some ("Y") }

/-- Witness for the amended C6 at concrete requests. -/
theorem c6_credential_amended_witness :
    statusOf (runRequest baseEnv).response = statusExpected baseEnv
    ∧ (resolveCookies envC6).opts.cookiefile = some ("/srv/env-cookie.txt")
    ∧ (resolveCookies envC6b).written = [(envCookieTmpName ("u0"), ("!!!"), 0o600)]
    ∧ ((resolveCookies envC6c).opts.cookiefile = none
        ∧ (resolveCookies envC6c).opts.cookiesfrombrowser = none
        ∧ (resolveCookies envC6c).written = []) :=
  ⟨(c6_credential_amended baseEnv).1,
   (c6_credential_amended envC6).2.1 (by decide) rfl rfl (by decide) rfl,
   (c6_credential_amended envC6b).2.2.1 (by decide) (by decide) (by decide) rfl rfl,
   (c6_credential_amended envC6c).2.2.2 rfl rfl rfl (by decide) (by decide)⟩

/-- C10: an empty-string `cookies` parameter is falsy in the handler, so
the request behaves exactly as if no explicit cookie parameter had been
supplied: same resolution (in particular, the environment chain is
consulted) and same overall run. -/
theorem c10_empty_cookies (e : ReqEnv) (h : e.cookies = some ("")) :
    resolveCookies e = resolveCookies { e with cookies := none }
    ∧ runRequest e = runRequest { e with cookies := none } := by
  have hres : resolveCookies e = resolveCookies { e with cookies := none } := by
    simp only [resolveCookies, h]
    simp [optTruthy]
  refine ⟨hres, ?_⟩
  show runWithResolved e (resolveCookies e)
      = runWithResolved { e with cookies := none } (resolveCookies { e with cookies := none })
  rw [← hres]
  rfl

/-- A request with an empty explicit cookie parameter and a configured
environment cookie string. -/
def envC10 : ReqEnv :=
  { baseEnv with
    cookies := some (""),
    envCookieString := some ("E=1") }

/-- Witness for C10 at a concrete request. -/
theorem c10_empty_cookies_witness :
    resolveCookies envC10 = resolveCookies { envC10 with cookies := none }
    ∧ runRequest envC10 = runRequest { envC10 with cookies := none } :=
  ⟨(c10_empty_cookies envC10 rfl).1, (c10_empty_cookies envC10 rfl).2⟩

/-- C2 (counterexample): the name `Café.mp4` contains a code point ≥ 128
yet is Latin-1 encodable, so the produced header is the plain quoted form
with no `filename*` parameter — the claim requires both parts for every
name with a code point ≥ 128. -/
theorem c2_counterexample :
    (("Café.mp4").data.any (fun c => decide (128 ≤ c.toNat))) = true
    ∧ content_disposition_header ("Café.mp4") = ("attachment; filename=\x22Café.mp4\x22")
    ∧ containsSub (("filename*").data) ((content_disposition_header ("Café.mp4")).data) = false := by
  decide

/-- C2 (amended): a Latin-1 encodable name (even one with code points in
128-255) yields the plain quoted form alone; a name that is not Latin-1
encodable yields both the quoted ASCII-only fallback and the
`filename*=UTF-8` parameter, whose percent-decoding is exactly the UTF-8
byte sequence of the original name. -/
theorem c2_header_amended (fn : String) :
    (latin1Encodable fn = true →
        content_disposition_header fn
          = ("attachment; filename=\x22") ++ fn ++ ("\x22"))
    ∧ (latin1Encodable fn = false →
        content_disposition_header fn
          = ("attachment; filename=\x22") ++ ascii_fallback_filename fn ++
              ("\x22; filename*=UTF-8\x27\x27") ++ pyQuote fn
        ∧ percentDecode (pyQuote fn).data = utf8Bytes fn
        ∧ ∀ c ∈ (ascii_fallback_filename fn).data, c.toNat < 128) := by
  constructor
  · intro h
    simp [content_disposition_header, h]
  · intro h
    refine ⟨?_, pyQuote_decodes fn, asciiFallback_ascii fn⟩
    simp [content_disposition_header, h]

/-- Witness for the amended C2 at concrete names: an ASCII name and a
name outside Latin-1. -/
theorem c2_header_amended_witness :
    content_disposition_header ("clip.mp4") = ("attachment; filename=\x22clip.mp4\x22")
    ∧ content_disposition_header ("日x.mp4")
        = ("attachment; filename=\x22") ++ ascii_fallback_filename ("日x.mp4") ++
            ("\x22; filename*=UTF-8\x27\x27") ++ pyQuote ("日x.mp4")
    ∧ percentDecode (pyQuote ("日x.mp4")).data = utf8Bytes ("日x.mp4") :=
  ⟨(c2_header_amended ("clip.mp4")).1 (by decide),
   ((c2_header_amended ("日x.mp4")).2 (by decide)).1,
   ((c2_header_amended ("日x.mp4")).2 (by decide)).2.1⟩

/-- C8 (counterexample): on the all-ASCII input `_a_` (NFKD is the
identity on ASCII) the source idiom removes the leading and trailing
underscores and yields `a`, while the algorithm as the claim words it —
collapse runs of underscores into one — yields `_a_`. -/
theorem c8_counterexample :
    ascii_fallback_filename ("_a_") = ("a")
    ∧ asciiFallbackClaim ("_a_") = ("_a_")
    ∧ ¬ ascii_fallback_filename ("_a_") = asciiFallbackClaim ("_a_") := by
  decide

/-- C8 (amended): the fallback name is computed by NFKD normalisation,
replacement of every code point ≥ 128 by an underscore, collapsing each
run of underscores to one and removing leading and trailing underscores,
substituting `video` for an empty result, and truncating to 200 code
points. -/
theorem c8_fallback_amended (s : String) :
    ascii_fallback_filename s = asciiFallbackAmended s := by
  simp only [ascii_fallback_filename, asciiFallbackAmended, asciiFallbackList,
    asciiFallbackAmendedList]
  rw [dropWhile_collapseAux_false]
  rw [splitJoin_eq_trimCollapse (asciiReplace (nfkdList s.data)).length _ (Nat.le_refl _)]
